import Mathlib

/-!
A shallow embedding of the pairing tool in `mis2.py`: the pairing engine
`calculate_time_differences` (a cursor scan matching each 接收/received row to
the next 发出/sent row and computing a duration in minutes) and the header
detection / data extraction phase of `process_excel_file`.

Cells are modelled by `CellVal` (a Python `None`, a string, or a pandas
datetime value where `dtime none` is `NaT`).  A pandas DataFrame is a list of
column labels plus a list of rows.  `pd.to_datetime(_, format="%Y/%m/%d %H:%M",
errors=\x27coerce\x27)` is modelled by `parseTimestamp`, mapping a well-formed
`YYYY/MM/DD HH:MM` string to minutes since the Unix epoch and anything else to
`none` (NaT).  A float-NaN duration is modelled as `none`.
-/

/-- A spreadsheet / DataFrame cell: Python `None`, a string, or a datetime
value (`dtime none` is pandas `NaT`, `dtime (some t)` is a timestamp of `t`
minutes since the Unix epoch). -/
inductive CellVal where
  | blank : CellVal
  | str : String → CellVal
  | dtime : Option Int → CellVal
deriving DecidableEq, Repr, Inhabited

/-- Python `cell == "label"`: true only for an equal string cell. -/
def CellVal.eqStr : CellVal → String → Bool
  | CellVal.str s, t => s == t
  | _, _ => false

/-- Gregorian leap year test, as used by real calendar datetime parsing. -/
def isLeapYear (y : Nat) : Bool :=
  (y % 4 == 0 && y % 100 != 0) || y % 400 == 0

/-- Number of days in month `m` of year `y`. -/
def daysInMonth (y m : Nat) : Nat :=
  if m == 2 then (if isLeapYear y then 29 else 28)
  else if m == 4 || m == 6 || m == 9 || m == 11 then 30
  else 31

/-- Days from 1970-01-01 to year/month/day in the proleptic Gregorian
calendar (standard days-from-civil computation). -/
def daysFromCivil (y m d : Nat) : Int :=
  let yi : Int := if m ≤ 2 then (y : Int) - 1 else (y : Int)
  let era : Int := (if 0 ≤ yi then yi else yi - 399) / 400
  let yoe : Int := yi - era * 400
  let mp : Int := ((m : Int) + 9) % 12
  let doy : Int := (153 * mp + 2) / 5 + (d : Int) - 1
  let doe : Int := yoe * 365 + yoe / 4 - yoe / 100 + doy
  era * 146097 + doe - 719468

/-- Value of a list of decimal digit characters. -/
def digitsVal (cs : List Char) : Nat :=
  cs.foldl (fun a c => a * 10 + (c.toNat - 48)) 0

/-- Model of `pd.to_datetime(s, format="%Y/%m/%d %H:%M", errors=\x27coerce\x27)` on a
string: a calendar-valid `YYYY/MM/DD HH:MM` string becomes the timestamp in
minutes since the Unix epoch; any other string coerces to NaT (`none`). -/
def parseTimestamp (s : String) : Option Int :=
  match s.toList with
  | [y1, y2, y3, y4, c1, m1, m2, c2, d1, d2, c3, h1, h2, c4, n1, n2] =>
    if c1 == '/' && c2 == '/' && c3 == ' ' && c4 == ':' &&
        [y1, y2, y3, y4, m1, m2, d1, d2, h1, h2, n1, n2].all Char.isDigit then
      let y := digitsVal [y1, y2, y3, y4]
      let mo := digitsVal [m1, m2]
      let d := digitsVal [d1, d2]
      let h := digitsVal [h1, h2]
      let mi := digitsVal [n1, n2]
      if 1 ≤ mo && mo ≤ 12 && 1 ≤ d && d ≤ daysInMonth y mo && h ≤ 23 && mi ≤ 59 then
        some (daysFromCivil y mo d * 1440 + (h : Int) * 60 + (mi : Int))
      else none
    else none
  | _ => none

/-- Applying `pd.to_datetime(_, errors=\x27coerce\x27)` to one cell: a string is
parsed, an existing datetime is kept, `None` coerces to NaT. -/
def coerceDatetime : CellVal → Option Int
  | CellVal.str s => parseTimestamp s
  | CellVal.dtime t => t
  | CellVal.blank => none

/-- A pandas DataFrame: column labels (dict keys, so possibly non-string
cells) and rows of cells aligned with the columns. -/
structure DataFrame where
  columns : List CellVal
  rows : List (List CellVal)
deriving DecidableEq, Repr, Inhabited

/-- Reading one cell of a row given the position of the wanted column
(`none` / out of range read as a missing value). -/
def rowCell (row : List CellVal) (idx : Option Nat) : CellVal :=
  match idx with
  | some k => row.getD k CellVal.blank
  | none => CellVal.blank

/-- Position of the first column with the given label. -/
def DataFrame.colIdx (df : DataFrame) (c : CellVal) : Option Nat :=
  df.columns.findIdx? (· == c)

/-- Pandas column assignment `df[c] = vals`: overwrite the column in place if
the label exists, otherwise append it as a new last column. -/
def DataFrame.setColumn (df : DataFrame) (c : CellVal) (vals : List CellVal) : DataFrame :=
  match df.colIdx c with
  | some k => { columns := df.columns, rows := (df.rows.zip vals).map (fun rv => rv.1.set k rv.2) }
  | none => { columns := df.columns ++ [c], rows := (df.rows.zip vals).map (fun rv => rv.1 ++ [rv.2]) }

/-- One record appended to `results` by the scan (line 50 of `mis2.py`):
the two endpoint positions, their raw 会话时间 cells, and the duration in
minutes (`none` models the float NaN produced via NaT endpoints). -/
structure MatchRec where
  receive_index : Nat
  send_index : Nat
  receive_time : CellVal
  send_time : CellVal
  time_diff_minutes : Option Int
deriving DecidableEq, Repr

/-- Duration `(send_time - receive_time).total_seconds() / 60`: defined minutes when
both endpoints are real timestamps, NaN (`none`) otherwise. -/
def timeDiffMinutes : Option Int → Option Int → Option Int
  | some r, some s => some (s - r)
  | _, _ => none

/-- The per-row data the scan in `calculate_time_differences` reads: the
发出/接收 cell, the raw 会话时间 cell, and the `datetime` column value. -/
structure ScanRow where
  dir : CellVal
  rawTime : CellVal
  dt : Option Int
deriving DecidableEq, Repr, Inhabited

/-- Test `df.iloc[k]["发出/接收"] == "发出"` (out of range reads as missing). -/
def isSentAt (rows : List ScanRow) (k : Nat) : Bool :=
  (rows.getD k default).dir.eqStr "发出"

/-- Test `df.iloc[k]["发出/接收"] == "接收"` (out of range reads as missing). -/
def isReceivedAt (rows : List ScanRow) (k : Nat) : Bool :=
  (rows.getD k default).dir.eqStr "接收"

/-- The inner `while j < len(df)` loop of `calculate_time_differences`
(lines 41-61): from position `j`, the position of the first 发出 row, if any.
`fuel` only bounds the number of iterations; `findSent` supplies enough. -/
def findSentAux (rows : List ScanRow) : Nat → Nat → Option Nat
  | 0, _ => none
  | fuel + 1, j =>
    if j < rows.length then
      if isSentAt rows j then some j else findSentAux rows fuel (j + 1)
    else none

/-- Position of the first 发出 row at or after `j`, if any. -/
def findSent (rows : List ScanRow) (j : Nat) : Option Nat :=
  findSentAux rows (rows.length - j) j

/-- The record the scan appends for a 接收 row at `i` matched to the 发出 row
at `j` (lines 50-56 of `mis2.py`). -/
def mkMatchRec (rows : List ScanRow) (i j : Nat) : MatchRec :=
  { receive_index := i
    send_index := j
    receive_time := (rows.getD i default).rawTime
    send_time := (rows.getD j default).rawTime
    time_diff_minutes := timeDiffMinutes (rows.getD i default).dt (rows.getD j default).dt }

/-- The outer `while i < len(df)` loop of `calculate_time_differences`
(lines 31-67): at a 接收 row the next 发出 row is sought; on success a record
is emitted and the cursor jumps to the 发出 position, on failure (and at any
non-接收 row) the cursor advances by one.  `fuel` only bounds the number of
iterations; `scanFrom` supplies enough. -/
def scanAux (rows : List ScanRow) : Nat → Nat → List MatchRec
  | 0, _ => []
  | fuel + 1, i =>
    if i < rows.length then
      if isReceivedAt rows i then
        match findSent rows (i + 1) with
        | some j => mkMatchRec rows i j :: scanAux rows fuel j
        | none => scanAux rows fuel (i + 1)
      else scanAux rows fuel (i + 1)
    else []

/-- The full scan of `calculate_time_differences` starting at cursor `i`
(the cursor strictly increases each iteration, so `rows.length - i` outer
iterations always suffice). -/
def scanFrom (rows : List ScanRow) (i : Nat) : List MatchRec :=
  scanAux rows (rows.length - i) i

/-- The cursor position after one iteration of the outer loop at cursor `i`:
the position of the matched 发出 row when one is found, otherwise `i + 1`. -/
def nextCursor (rows : List ScanRow) (i : Nat) : Nat :=
  if i < rows.length then
    if isReceivedAt rows i then
      match findSent rows (i + 1) with
      | some j => j
      | none => i + 1
    else i + 1
  else i

/-- The record (if any) emitted by one iteration of the outer loop at `i`. -/
def emitAt (rows : List ScanRow) (i : Nat) : Option MatchRec :=
  if i < rows.length then
    if isReceivedAt rows i then
      (findSent rows (i + 1)).map (fun j => mkMatchRec rows i j)
    else none
  else none

/-- The `datetime` column assigned at line 25 of `mis2.py`:
`pd.to_datetime` of each 会话时间 cell. -/
def dtSeries (df : DataFrame) : List (Option Int) :=
  df.rows.map (fun r => coerceDatetime (rowCell r (df.colIdx (CellVal.str "会话时间"))))

/-- The DataFrame as mutated by line 25 of `mis2.py`: the input with the
`datetime` column assigned. -/
def mutatedDf (df : DataFrame) : DataFrame :=
  df.setColumn (CellVal.str "datetime") ((dtSeries df).map CellVal.dtime)

/-- The rows as the scan reads them: per row, the 发出/接收 cell, the raw
会话时间 cell, and the freshly assigned `datetime` value (which is
`coerceDatetime` of that same row's 会话时间 cell). -/
def scanRowsOf (df : DataFrame) : List ScanRow :=
  df.rows.map (fun r =>
    { dir := rowCell r (df.colIdx (CellVal.str "发出/接收"))
      rawTime := rowCell r (df.colIdx (CellVal.str "会话时间"))
      dt := coerceDatetime (rowCell r (df.colIdx (CellVal.str "会话时间"))) })

/-- Function `calculate_time_differences` (lines 13-69 of `mis2.py`): raises
(`Except.error`) when either required column is absent; otherwise assigns the
`datetime` column (mutating its argument) and runs the scan.  The returned
pair is (the `results` list, the DataFrame as left after the call). -/
def calculate_time_differences (df : DataFrame) : Except String (List MatchRec × DataFrame) :=
  if CellVal.str "发出/接收" ∉ df.columns ∨ CellVal.str "会话时间" ∉ df.columns then
    Except.error "数据必须包含\x27发出/接收\x27和\x27会话时间\x27列"
  else
    Except.ok (scanFrom (scanRowsOf df) 0, mutatedDf df)

instance {ε α : Type} [DecidableEq ε] [DecidableEq α] : DecidableEq (Except ε α) := fun a b =>
  match a, b with
  | Except.error e, Except.error f =>
    if h : e = f then Decidable.isTrue (by rw [h])
    else Decidable.isFalse (by intro hc; injection hc with h2; exact h h2)
  | Except.error _, Except.ok _ => Decidable.isFalse (by intro hc; exact Except.noConfusion hc)
  | Except.ok _, Except.error _ => Decidable.isFalse (by intro hc; exact Except.noConfusion hc)
  | Except.ok a, Except.ok b =>
    if h : a = b then Decidable.isTrue (by rw [h])
    else Decidable.isFalse (by intro hc; injection hc with h2; exact h h2)

/-- The 发出/接收 cell of row `k` of a DataFrame (missing when out of range
or when there is no such column). -/
def DataFrame.dirCell (df : DataFrame) (k : Nat) : CellVal :=
  rowCell (df.rows.getD k []) (df.colIdx (CellVal.str "发出/接收"))

/-- The parsed 会话时间 value of row `k` of a DataFrame, `none` when NaT. -/
def DataFrame.datetimeAt (df : DataFrame) (k : Nat) : Option Int :=
  coerceDatetime (rowCell (df.rows.getD k []) (df.colIdx (CellVal.str "会话时间")))

/-- Header search of `process_excel_file` (lines 79-83 of `mis2.py`): the
first nonempty sheet row containing the 发出/接收 label or the 会话时间 label,
with its 1-based row number (`enumerate(..., start=1)`). -/
def findHeaderRowAux : List (List CellVal) → Nat → Option (Nat × List CellVal)
  | [], _ => none
  | r :: rs, i =>
    if r ≠ [] ∧ (CellVal.str "发出/接收" ∈ r ∨ CellVal.str "会话时间" ∈ r) then some (i, r)
    else findHeaderRowAux rs (i + 1)

/-- The header row of a sheet, per lines 79-83 of `mis2.py`. -/
def findHeaderRow (sheetRows : List (List CellVal)) : Option (Nat × List CellVal) :=
  findHeaderRowAux sheetRows 1

/-- The column-position search of lines 94-101 of `mis2.py`: walk the header
cells keeping the index of the last cell equal to 发出/接收 and (via `elif`)
the last cell equal to 会话时间. -/
def scanHeaderIdxs : List CellVal → Nat → Option Nat × Option Nat → Option Nat × Option Nat
  | [], _, acc => acc
  | hcell :: rest, i, acc =>
    if hcell = CellVal.str "发出/接收" then scanHeaderIdxs rest (i + 1) (some i, acc.2)
    else if hcell = CellVal.str "会话时间" then scanHeaderIdxs rest (i + 1) (acc.1, some i)
    else scanHeaderIdxs rest (i + 1) acc

/-- The header phase of `process_excel_file` (lines 79-104): locate the header
row, then the two required column positions within it; either search failing
raises the corresponding `ValueError`. -/
def headerPhase (sheetRows : List (List CellVal)) :
    Except String (Nat × List CellVal × Nat × Nat) :=
  match findHeaderRow sheetRows with
  | none => Except.error "无法找到包含\x27发出/接收\x27或\x27会话时间\x27的列"
  | some (hr, headers) =>
    match scanHeaderIdxs headers 0 (none, none) with
    | (some si, some ti) => Except.ok (hr, headers, si, ti)
    | _ => Except.error "必须包含\x27发出/接收\x27和\x27会话时间\x27列"

/-- Python dict assignment `d[k] = v`: overwrite in place when the key
exists, else append (insertion order preserved). -/
def dictSet (d : List (CellVal × CellVal)) (k v : CellVal) : List (CellVal × CellVal) :=
  if d.any (fun p => p.1 == k) then d.map (fun p => if p.1 == k then (k, v) else p)
  else d ++ [(k, v)]

/-- Value of key `k` in a dict-as-assoc-list (missing keys read as NaN). -/
def dictGet (d : List (CellVal × CellVal)) (k : CellVal) : CellVal :=
  match d.find? (fun p => p.1 == k) with
  | some p => p.2
  | none => CellVal.blank

/-- Building one `data_row` dict (lines 112-117 of `mis2.py`): for each
header cell in turn, `data_row[header] = row[j]` (or `None` past the row
end). -/
def buildDataRow : List CellVal → Nat → List CellVal → List (CellVal × CellVal) →
    List (CellVal × CellVal)
  | [], _, _, d => d
  | h :: hs, j, row, d => buildDataRow hs (j + 1) row (dictSet d h (row.getD j CellVal.blank))

/-- Data collection of `process_excel_file` (lines 107-119): the sheet rows
below the header row, skipping empty rows and rows whose direction or time
cell is `None`, each turned into a `data_row` dict. -/
def extractData (sheetRows : List (List CellVal)) (headerRow : Nat) (headers : List CellVal)
    (si ti : Nat) : List (List (CellVal × CellVal)) :=
  ((sheetRows.drop headerRow).filter
      (fun r => !(r.isEmpty || r.getD si CellVal.blank == CellVal.blank ||
        r.getD ti CellVal.blank == CellVal.blank))).map
    (fun r => buildDataRow headers 0 r [])

/-- Keys of a list of dicts in order of first appearance (the columns
`pd.DataFrame(data)` infers; for an empty `data` there are no columns). -/
def unionKeys (data : List (List (CellVal × CellVal))) : List CellVal :=
  data.foldl (fun acc r => r.foldl (fun acc2 p => if p.1 ∈ acc2 then acc2 else acc2 ++ [p.1]) acc) []

/-- Model of `pd.DataFrame(data)` on a list of row dicts: columns are the keys in
order of first appearance, each row aligned to them. -/
def mkDataFrame (data : List (List (CellVal × CellVal))) : DataFrame :=
  let cols := unionKeys data
  { columns := cols, rows := data.map (fun r => cols.map (fun c => dictGet r c)) }

/-- Function `process_excel_file` (lines 72-127 of `mis2.py`) up to and including the
pairing call: header phase, data collection, `pd.DataFrame`, then
`calculate_time_differences` with its exception re-wrapped (lines 124-127).
The later spreadsheet-writing steps consume this result and are outside the
modelled scope. -/
def process_excel_file (sheetRows : List (List CellVal)) :
    Except String (List MatchRec × DataFrame) :=
  match headerPhase sheetRows with
  | Except.error e => Except.error e
  | Except.ok (hr, headers, si, ti) =>
    let df := mkDataFrame (extractData sheetRows hr headers si ti)
    match calculate_time_differences df with
    | Except.ok r => Except.ok r
    | Except.error e => Except.error ("计算时间差时出错: " ++ e)

/-- A three-row DataFrame with directions 接收, 接收, 发出 and the given raw
time strings (the shape of Scenario B of the spec). -/
def threeRowDf (s0 s1 s2 : String) : DataFrame :=
  { columns := [CellVal.str "发出/接收", CellVal.str "会话时间"]
    rows := [[CellVal.str "接收", CellVal.str s0],
             [CellVal.str "接收", CellVal.str s1],
             [CellVal.str "发出", CellVal.str s2]] }

/-- Scenario B at concrete timestamps t0 = 10:00, t1 = 10:05, t2 = 10:12. -/
def dfScenarioB : DataFrame :=
  threeRowDf "2024/01/01 10:00" "2024/01/01 10:05" "2024/01/01 10:12"

/-- A minimal two-row input: one 接收 then one 发出, five minutes apart. -/
def dfPair : DataFrame :=
  { columns := [CellVal.str "发出/接收", CellVal.str "会话时间"]
    rows := [[CellVal.str "接收", CellVal.str "2024/01/01 10:00"],
             [CellVal.str "发出", CellVal.str "2024/01/01 10:05"]] }

/-- Two received/sent pairs in sequence, giving two matches. -/
def dfTwoPairs : DataFrame :=
  { columns := [CellVal.str "发出/接收", CellVal.str "会话时间"]
    rows := [[CellVal.str "接收", CellVal.str "2024/01/01 10:00"],
             [CellVal.str "发出", CellVal.str "2024/01/01 10:05"],
             [CellVal.str "接收", CellVal.str "2024/01/01 10:30"],
             [CellVal.str "发出", CellVal.str "2024/01/01 10:40"]] }

/-- A DataFrame with no columns at all, as `pd.DataFrame([])` yields. -/
def dfNoCols : DataFrame := { columns := [], rows := [] }

/-- An input whose 接收 row carries an unparseable 会话时间 value. -/
def dfBadTime : DataFrame :=
  { columns := [CellVal.str "发出/接收", CellVal.str "会话时间"]
    rows := [[CellVal.str "接收", CellVal.str "无效时间"],
             [CellVal.str "发出", CellVal.str "2024/01/01 10:05"]] }

/-- A sheet whose first label-bearing row has only the direction label while a
later row has both labels. -/
def sheetTricky : List (List CellVal) :=
  [[CellVal.str "发出/接收"],
   [CellVal.str "发出/接收", CellVal.str "会话时间"]]

/-- A sheet holding only the header row and no data rows at all. -/
def sheetHeaderOnly : List (List CellVal) :=
  [[CellVal.str "发出/接收", CellVal.str "会话时间"]]

/-- A sheet with a title row, then the header row, then one matched pair. -/
def sheetGood : List (List CellVal) :=
  [[CellVal.str "标题", CellVal.blank],
   [CellVal.str "发出/接收", CellVal.str "会话时间"],
   [CellVal.str "接收", CellVal.str "2024/01/01 10:00"],
   [CellVal.str "发出", CellVal.str "2024/01/01 10:07"]]

/-- A cell tests equal to a label string exactly when it is that string. -/
theorem eqStr_iff {c : CellVal} {t : String} : c.eqStr t = true ↔ c = CellVal.str t := by
  cases c <;> simp [CellVal.eqStr]

/-- A 发出 row is not a 接收 row. -/
theorem not_received_of_sent {rows : List ScanRow} {k : Nat} (h : isSentAt rows k = true) :
    isReceivedAt rows k = false := by
  unfold isSentAt at h
  unfold isReceivedAt
  rw [eqStr_iff] at h
  rw [h]
  decide

/-- Specification of the inner loop: a found position is at or after the
start, in range, is a 发出 row, and is the first 发出 row from the start. -/
theorem findSentAux_some_spec {rows : List ScanRow} :
    ∀ {fuel s j : Nat}, findSentAux rows fuel s = some j →
      s ≤ j ∧ j < rows.length ∧ isSentAt rows j = true ∧
        ∀ k, s ≤ k → k < j → isSentAt rows k = false := by
  intro fuel
  induction fuel with
  | zero => intro s j h; simp [findSentAux] at h
  | succ fuel ih =>
    intro s j h
    simp only [findSentAux] at h
    by_cases hs : s < rows.length
    · rw [if_pos hs] at h
      by_cases hsent : isSentAt rows s = true
      · rw [if_pos hsent] at h
        injection h with h2
        subst h2
        exact ⟨Nat.le_refl s, hs, hsent, fun k hk1 hk2 => absurd hk1 (by omega)⟩
      · rw [if_neg hsent] at h
        obtain ⟨h1, h2, h3, h4⟩ := ih h
        refine ⟨by omega, h2, h3, fun k hk1 hk2 => ?_⟩
        by_cases hks : k = s
        · subst hks
          exact Bool.not_eq_true _ ▸ eq_false_of_ne_true hsent
        · exact h4 k (by omega) hk2
    · rw [if_neg hs] at h
      simp at h

/-- Specification of `findSent`. -/
theorem findSent_some_spec {rows : List ScanRow} {s j : Nat} (h : findSent rows s = some j) :
    s ≤ j ∧ j < rows.length ∧ isSentAt rows j = true ∧
      ∀ k, s ≤ k → k < j → isSentAt rows k = false :=
  findSentAux_some_spec h

/-- Past the end of the rows the scan yields nothing, whatever the fuel. -/
theorem scanAux_stop {rows : List ScanRow} {fuel i : Nat} (h : rows.length ≤ i) :
    scanAux rows fuel i = [] := by
  cases fuel with
  | zero => rfl
  | succ fuel => simp [scanAux, Nat.not_lt.mpr h]

/-- The scan result does not depend on the fuel, once the fuel covers the
remaining rows (the cursor strictly increases, so one unit per row is
enough). -/
theorem scanAux_eq_of_le {rows : List ScanRow} :
    ∀ {fuel fuel2 i : Nat}, rows.length - i ≤ fuel → rows.length - i ≤ fuel2 →
      scanAux rows fuel i = scanAux rows fuel2 i := by
  intro fuel
  induction fuel with
  | zero =>
    intro fuel2 i h1 _
    rw [scanAux_stop (by omega), scanAux_stop (by omega)]
  | succ fuel ih =>
    intro fuel2 i h1 h2
    by_cases hi : i < rows.length
    · obtain ⟨f2, rfl⟩ : ∃ f2, fuel2 = f2 + 1 := by
        cases fuel2 with
        | zero => omega
        | succ f2 => exact ⟨f2, rfl⟩
      by_cases hr : isReceivedAt rows i = true
      · cases hf : findSent rows (i + 1) with
        | some j =>
          have hj := findSent_some_spec hf
          simp only [scanAux, if_pos hi, if_pos hr, hf]
          have hrec : scanAux rows fuel j = scanAux rows f2 j := ih (by omega) (by omega)
          rw [hrec]
        | none =>
          simp only [scanAux, if_pos hi, if_pos hr, hf]
          exact ih (by omega) (by omega)
      · simp only [scanAux, if_pos hi, if_neg hr]
        exact ih (by omega) (by omega)
    · rw [scanAux_stop (by omega), scanAux_stop (by omega)]

/-- The scan from a cursor at or past the end yields nothing. -/
theorem scanFrom_stop {rows : List ScanRow} {i : Nat} (h : rows.length ≤ i) :
    scanFrom rows i = [] :=
  scanAux_stop h

/-- One unfolding of the outer loop: from an in-range cursor, the scan emits
what the iteration emits and continues from the next cursor position. -/
theorem scanFrom_unfold {rows : List ScanRow} {i : Nat} (hi : i < rows.length) :
    scanFrom rows i = (emitAt rows i).toList ++ scanFrom rows (nextCursor rows i) := by
  unfold scanFrom
  obtain ⟨f, hf⟩ : ∃ f, rows.length - i = f + 1 := ⟨rows.length - i - 1, by omega⟩
  rw [hf]
  unfold emitAt nextCursor
  by_cases hr : isReceivedAt rows i = true
  · cases hfs : findSent rows (i + 1) with
    | some j =>
      have hj := findSent_some_spec hfs
      simp only [scanAux, if_pos hi, if_pos hr, hfs, Option.map_some', Option.toList_some,
        List.cons_append, List.nil_append]
      have hrec : scanAux rows f j = scanAux rows (rows.length - j) j :=
        scanAux_eq_of_le (by omega) (by omega)
      rw [hrec]
    | none =>
      simp only [scanAux, if_pos hi, if_pos hr, hfs, Option.map_none', Option.toList_none,
        List.nil_append]
      exact scanAux_eq_of_le (by omega) (by omega)
  · simp only [scanAux, if_pos hi, if_neg hr, Option.toList_none, List.nil_append]
    exact scanAux_eq_of_le (by omega) (by omega)

/-- Every record the scan emits from cursor `i` has its 接收 endpoint at or
after `i`, its 发出 endpoint strictly later and in range, correct directions
at both endpoints, no 发出 row strictly between them, and fields built by
`mkMatchRec` from its two endpoint positions. -/
theorem scanAux_mem_spec {rows : List ScanRow} :
    ∀ {fuel i : Nat} {m : MatchRec}, rows.length - i ≤ fuel → m ∈ scanAux rows fuel i →
      i ≤ m.receive_index ∧ m.receive_index < m.send_index ∧ m.send_index < rows.length ∧
        isReceivedAt rows m.receive_index = true ∧ isSentAt rows m.send_index = true ∧
        (∀ k, m.receive_index < k → k < m.send_index → isSentAt rows k = false) ∧
        m = mkMatchRec rows m.receive_index m.send_index := by
  intro fuel
  induction fuel with
  | zero => intro i m _ hm; simp [scanAux] at hm
  | succ fuel ih =>
    intro i m hfuel hm
    by_cases hi : i < rows.length
    · by_cases hr : isReceivedAt rows i = true
      · cases hfs : findSent rows (i + 1) with
        | some j =>
          have hj := findSent_some_spec hfs
          simp only [scanAux, if_pos hi, if_pos hr, hfs] at hm
          rcases List.mem_cons.mp hm with rfl | hm2
          · refine ⟨Nat.le_refl _, by simp [mkMatchRec]; omega, ?_, ?_, ?_, ?_, ?_⟩
            · simpa [mkMatchRec] using hj.2.1
            · simpa [mkMatchRec] using hr
            · simpa [mkMatchRec] using hj.2.2.1
            · intro k hk1 hk2
              simp only [mkMatchRec] at hk1 hk2
              exact hj.2.2.2 k (by omega) hk2
            · simp [mkMatchRec]
          · have hspec := ih (by omega) hm2
            have h1 := hspec.1
            exact ⟨by omega, hspec.2⟩
        | none =>
          simp only [scanAux, if_pos hi, if_pos hr, hfs] at hm
          have hspec := ih (by omega) hm
          have h1 := hspec.1
          exact ⟨by omega, hspec.2⟩
      · simp only [scanAux, if_pos hi, if_neg hr] at hm
        have hspec := ih (by omega) hm
        have h1 := hspec.1
        exact ⟨by omega, hspec.2⟩
    · rw [scanAux_stop (by omega)] at hm
      simp at hm

/-- Specification of the records of a full scan from cursor `i`. -/
theorem scanFrom_mem_spec {rows : List ScanRow} {i : Nat} {m : MatchRec}
    (hm : m ∈ scanFrom rows i) :
    i ≤ m.receive_index ∧ m.receive_index < m.send_index ∧ m.send_index < rows.length ∧
      isReceivedAt rows m.receive_index = true ∧ isSentAt rows m.send_index = true ∧
      (∀ k, m.receive_index < k → k < m.send_index → isSentAt rows k = false) ∧
      m = mkMatchRec rows m.receive_index m.send_index :=
  scanAux_mem_spec (Nat.le_refl _) hm

/-- Scan records are emitted with disjoint, strictly advancing spans: each
record's 发出 endpoint lies strictly before every later record's 接收
endpoint. -/
theorem scanAux_pairwise {rows : List ScanRow} :
    ∀ {fuel i : Nat}, rows.length - i ≤ fuel →
      List.Pairwise (fun a b => a.send_index < b.receive_index) (scanAux rows fuel i) := by
  intro fuel
  induction fuel with
  | zero => intro i _; exact List.Pairwise.nil
  | succ fuel ih =>
    intro i hfuel
    by_cases hi : i < rows.length
    · by_cases hr : isReceivedAt rows i = true
      · cases hfs : findSent rows (i + 1) with
        | some j =>
          have hj := findSent_some_spec hfs
          simp only [scanAux, if_pos hi, if_pos hr, hfs]
          refine List.Pairwise.cons ?_ (ih (by omega))
          intro b hb
          have hbspec := scanAux_mem_spec (by omega) hb
          have hge : j ≤ b.receive_index := hbspec.1
          have hne : b.receive_index ≠ j := by
            intro he
            have hrecv := hbspec.2.2.2.1
            rw [he, not_received_of_sent hj.2.2.1] at hrecv
            exact Bool.false_ne_true hrecv
          simp only [mkMatchRec]
          omega
        | none =>
          simp only [scanAux, if_pos hi, if_pos hr, hfs]
          exact ih (by omega)
      · simp only [scanAux, if_pos hi, if_neg hr]
        exact ih (by omega)
    · rw [scanAux_stop (by omega)]
      exact List.Pairwise.nil

/-- Pairwise advancing spans for the full scan. -/
theorem scanFrom_pairwise {rows : List ScanRow} {i : Nat} :
    List.Pairwise (fun a b => a.send_index < b.receive_index) (scanFrom rows i) :=
  scanAux_pairwise (Nat.le_refl _)

/-- The default scan row carries a missing direction cell. -/
theorem default_scanRow_dir : (default : ScanRow).dir = CellVal.blank := rfl

/-- The default scan row carries a NaT datetime. -/
theorem default_scanRow_dt : (default : ScanRow).dt = none := rfl

/-- One scan row per DataFrame row. -/
theorem scanRowsOf_length (df : DataFrame) : (scanRowsOf df).length = df.rows.length := by
  simp [scanRowsOf]

/-- The direction cell the scan reads at `k` is the DataFrame's own. -/
theorem scanRowsOf_dir (df : DataFrame) (k : Nat) :
    ((scanRowsOf df).getD k default).dir = df.dirCell k := by
  unfold scanRowsOf DataFrame.dirCell
  rw [List.getD_eq_getElem?_getD, List.getElem?_map, List.getD_eq_getElem?_getD]
  cases h : df.rows[k]? with
  | none =>
    cases df.colIdx (CellVal.str "发出/接收") <;>
      simp [rowCell, default_scanRow_dir]
  | some r => simp

/-- The datetime value the scan reads at `k` is the parsed 会话时间 value of
the DataFrame's row `k`. -/
theorem scanRowsOf_dt (df : DataFrame) (k : Nat) :
    ((scanRowsOf df).getD k default).dt = df.datetimeAt k := by
  unfold scanRowsOf DataFrame.datetimeAt
  rw [List.getD_eq_getElem?_getD, List.getElem?_map, List.getD_eq_getElem?_getD]
  cases h : df.rows[k]? with
  | none =>
    cases df.colIdx (CellVal.str "会话时间") <;>
      simp [rowCell, default_scanRow_dt, coerceDatetime]
  | some r => simp

/-- Being a 接收 row, read through the scan rows, is having the 接收 cell in
the DataFrame. -/
theorem isReceivedAt_scanRowsOf (df : DataFrame) (k : Nat) :
    isReceivedAt (scanRowsOf df) k = true ↔ df.dirCell k = CellVal.str "接收" := by
  unfold isReceivedAt
  rw [scanRowsOf_dir, eqStr_iff]

/-- Being a 发出 row, read through the scan rows, is having the 发出 cell in
the DataFrame. -/
theorem isSentAt_scanRowsOf (df : DataFrame) (k : Nat) :
    isSentAt (scanRowsOf df) k = true ↔ df.dirCell k = CellVal.str "发出" := by
  unfold isSentAt
  rw [scanRowsOf_dir, eqStr_iff]

/-- A missing received endpoint makes the duration NaN. -/
theorem timeDiffMinutes_none_left (s : Option Int) : timeDiffMinutes none s = none := by
  cases s <;> rfl

/-- A missing sent endpoint makes the duration NaN. -/
theorem timeDiffMinutes_none_right (r : Option Int) : timeDiffMinutes r none = none := by
  cases r <;> rfl

/-- Inversion of a successful `calculate_time_differences` call: both columns
were present, the results are the scan of the derived rows, and the returned
DataFrame is the mutated input. -/
theorem calculate_ok_inv {df : DataFrame} {out : List MatchRec × DataFrame}
    (h : calculate_time_differences df = Except.ok out) :
    out.1 = scanFrom (scanRowsOf df) 0 ∧ out.2 = mutatedDf df ∧
      CellVal.str "发出/接收" ∈ df.columns ∧ CellVal.str "会话时间" ∈ df.columns := by
  unfold calculate_time_differences at h
  split at h
  · exact Except.noConfusion h
  · injection h with h2
    rw [← h2]
    rename_i hcond
    push_neg at hcond
    exact ⟨rfl, rfl, hcond.1, hcond.2⟩

/-- With both required columns present the engine returns normally. -/
theorem calculate_ok_of_cols {df : DataFrame}
    (h1 : CellVal.str "发出/接收" ∈ df.columns) (h2 : CellVal.str "会话时间" ∈ df.columns) :
    calculate_time_differences df =
      Except.ok (scanFrom (scanRowsOf df) 0, mutatedDf df) := by
  unfold calculate_time_differences
  rw [if_neg]
  push_neg
  exact ⟨h1, h2⟩

/-- With a required column absent the engine raises the `ValueError`. -/
theorem calculate_error_of_missing {df : DataFrame}
    (h : CellVal.str "发出/接收" ∉ df.columns ∨ CellVal.str "会话时间" ∉ df.columns) :
    calculate_time_differences df =
      Except.error "数据必须包含\x27发出/接收\x27和\x27会话时间\x27列" := by
  unfold calculate_time_differences
  rw [if_pos h]

/-- C1: for every input DataFrame and every Match the pairing engine emits,
the row at `receive_index` has direction 接收 (Received), the row at
`send_index` has direction 发出 (Sent), and no row strictly between the two
has direction 发出: the matched sent row is the next subsequent sent event
after the received row. -/
theorem c1_match_endpoint_directions (df : DataFrame) (out : List MatchRec × DataFrame)
    (h : calculate_time_differences df = Except.ok out) (m : MatchRec) (hm : m ∈ out.1) :
    df.dirCell m.receive_index = CellVal.str "接收" ∧
      df.dirCell m.send_index = CellVal.str "发出" ∧
      ∀ k, m.receive_index < k → k < m.send_index → df.dirCell k ≠ CellVal.str "发出" := by
  obtain ⟨h1, _, _, _⟩ := calculate_ok_inv h
  rw [h1] at hm
  obtain ⟨_, _, _, hrecv, hsent, hbet, _⟩ := scanFrom_mem_spec hm
  refine ⟨(isReceivedAt_scanRowsOf df _).mp hrecv, (isSentAt_scanRowsOf df _).mp hsent, ?_⟩
  intro k hk1 hk2 hcontra
  have hat := (isSentAt_scanRowsOf df k).mpr hcontra
  rw [hbet k hk1 hk2] at hat
  exact Bool.false_ne_true hat

/-- Witness for C1 on the two-row input `dfPair`. -/
theorem c1_match_endpoint_directions_witness :
    dfPair.dirCell 0 = CellVal.str "接收" ∧
      dfPair.dirCell 1 = CellVal.str "发出" ∧
      ∀ k, 0 < k → k < 1 → dfPair.dirCell k ≠ CellVal.str "发出" :=
  c1_match_endpoint_directions dfPair (scanFrom (scanRowsOf dfPair) 0, mutatedDf dfPair)
    (by decide) (mkMatchRec (scanRowsOf dfPair) 0 1) (by decide)

/-- C2: every Match emitted by the pairing engine has its `send_index`
strictly greater than its `receive_index`. -/
theorem c2_sent_index_after_received_index (df : DataFrame) (out : List MatchRec × DataFrame)
    (h : calculate_time_differences df = Except.ok out) (m : MatchRec) (hm : m ∈ out.1) :
    m.receive_index < m.send_index := by
  obtain ⟨h1, _, _, _⟩ := calculate_ok_inv h
  rw [h1] at hm
  exact (scanFrom_mem_spec hm).2.1

/-- Witness for C2 on the two-row input `dfPair`. -/
theorem c2_sent_index_after_received_index_witness :
    (mkMatchRec (scanRowsOf dfPair) 0 1).receive_index <
      (mkMatchRec (scanRowsOf dfPair) 0 1).send_index :=
  c2_sent_index_after_received_index dfPair
    (scanFrom (scanRowsOf dfPair) 0, mutatedDf dfPair)
    (by decide) (mkMatchRec (scanRowsOf dfPair) 0 1) (by decide)

/-- C3: no two distinct Matches of one engine run share a `receive_index`,
and no two share a `send_index`. -/
theorem c3_no_shared_endpoints (df : DataFrame) (out : List MatchRec × DataFrame)
    (h : calculate_time_differences df = Except.ok out) :
    List.Pairwise
      (fun a b => a.receive_index ≠ b.receive_index ∧ a.send_index ≠ b.send_index) out.1 := by
  obtain ⟨h1, _, _, _⟩ := calculate_ok_inv h
  rw [h1]
  have hp : List.Pairwise (fun a b => a.send_index < b.receive_index)
      (scanFrom (scanRowsOf df) 0) := scanFrom_pairwise
  refine hp.imp_of_mem ?_
  intro a b ha hb hab
  have hha := (scanFrom_mem_spec ha).2.1
  have hhb := (scanFrom_mem_spec hb).2.1
  constructor <;> omega

/-- Witness for C3 on the four-row input `dfTwoPairs`. -/
theorem c3_no_shared_endpoints_witness :
    List.Pairwise
      (fun a b => a.receive_index ≠ b.receive_index ∧ a.send_index ≠ b.send_index)
      (scanFrom (scanRowsOf dfTwoPairs) 0, mutatedDf dfTwoPairs).1 :=
  c3_no_shared_endpoints dfTwoPairs
    (scanFrom (scanRowsOf dfTwoPairs) 0, mutatedDf dfTwoPairs) (by decide)

/-- C6: the pairing engine raises its `ValueError` exactly when the input
lacks the 发出/接收 column or the 会话时间 column; the check happens before
any scanning, and with both columns present the engine returns normally
whatever the row contents. -/
theorem c6_validation_error_iff (df : DataFrame) :
    ((CellVal.str "发出/接收" ∉ df.columns ∨ CellVal.str "会话时间" ∉ df.columns) →
      calculate_time_differences df =
        Except.error "数据必须包含\x27发出/接收\x27和\x27会话时间\x27列") ∧
    ((CellVal.str "发出/接收" ∈ df.columns ∧ CellVal.str "会话时间" ∈ df.columns) →
      calculate_time_differences df =
        Except.ok (scanFrom (scanRowsOf df) 0, mutatedDf df)) :=
  ⟨calculate_error_of_missing, fun hc => calculate_ok_of_cols hc.1 hc.2⟩

/-- Witness for C6: a column-less input raises, a well-formed one returns. -/
theorem c6_validation_error_iff_witness :
    calculate_time_differences dfNoCols =
      Except.error "数据必须包含\x27发出/接收\x27和\x27会话时间\x27列" ∧
    calculate_time_differences dfPair =
      Except.ok (scanFrom (scanRowsOf dfPair) 0, mutatedDf dfPair) :=
  ⟨(c6_validation_error_iff dfNoCols).1 (by decide),
   (c6_validation_error_iff dfPair).2 (by decide)⟩

/-- C7: a Match whose received or sent endpoint has a null or unparseable
会话时间 value gets a NaN duration, while the engine still returns its full
Match sequence normally (the hypothesis `h` is a normal return). -/
theorem c7_invalid_timestamp_nan_duration (df : DataFrame) (out : List MatchRec × DataFrame)
    (m : MatchRec) (h : calculate_time_differences df = Except.ok out) (hm : m ∈ out.1)
    (hbad : df.datetimeAt m.receive_index = none ∨ df.datetimeAt m.send_index = none) :
    m.time_diff_minutes = none := by
  obtain ⟨h1, _, _, _⟩ := calculate_ok_inv h
  rw [h1] at hm
  obtain ⟨_, _, _, _, _, _, hmk⟩ := scanFrom_mem_spec hm
  rw [hmk]
  show timeDiffMinutes ((scanRowsOf df).getD m.receive_index default).dt
      ((scanRowsOf df).getD m.send_index default).dt = none
  rw [scanRowsOf_dt, scanRowsOf_dt]
  rcases hbad with hb | hb
  · rw [hb]
    exact timeDiffMinutes_none_left _
  · rw [hb]
    exact timeDiffMinutes_none_right _

/-- Witness for C7: in `dfBadTime` the 接收 row with an unparseable time is
still matched to the following 发出 row, and the duration is NaN. -/
theorem c7_invalid_timestamp_nan_duration_witness :
    (mkMatchRec (scanRowsOf dfBadTime) 0 1).time_diff_minutes = none :=
  c7_invalid_timestamp_nan_duration dfBadTime
    (scanFrom (scanRowsOf dfBadTime) 0, mutatedDf dfBadTime)
    (mkMatchRec (scanRowsOf dfBadTime) 0 1) (by decide) (by decide)
    (Or.inl (by decide))

/-- C9: the scan terminates: from any in-range cursor one outer iteration
strictly increases the cursor (to the found 发出 position or by one) and the
scan is the iteration's emission followed by the scan from the new cursor;
the scan ends exactly when the cursor reaches the length. -/
theorem c9_scan_cursor_terminates (rows : List ScanRow) (i : Nat) :
    (i < rows.length →
      i < nextCursor rows i ∧
        scanFrom rows i = (emitAt rows i).toList ++ scanFrom rows (nextCursor rows i)) ∧
    (rows.length ≤ i → scanFrom rows i = []) := by
  constructor
  · intro hi
    refine ⟨?_, scanFrom_unfold hi⟩
    by_cases hr : isReceivedAt rows i = true
    · cases hfs : findSent rows (i + 1) with
      | some j =>
        have hj := findSent_some_spec hfs
        simp only [nextCursor, if_pos hi, if_pos hr, hfs]
        omega
      | none =>
        simp only [nextCursor, if_pos hi, if_pos hr, hfs]
        omega
    · simp only [nextCursor, if_pos hi, if_neg hr]
      omega
  · exact scanFrom_stop

/-- Witness for C9 at cursor 0 of the scan rows of `dfPair`. -/
theorem c9_scan_cursor_terminates_witness :
    0 < nextCursor (scanRowsOf dfPair) 0 ∧
      scanFrom (scanRowsOf dfPair) 0 =
        (emitAt (scanRowsOf dfPair) 0).toList ++
          scanFrom (scanRowsOf dfPair) (nextCursor (scanRowsOf dfPair) 0) :=
  (c9_scan_cursor_terminates (scanRowsOf dfPair) 0).1 (by decide)

/-- C4 counterexample: on the Scenario B input (接收@10:00, 接收@10:05,
发出@10:12) the engine emits exactly one Match, and it pairs index 0 with
index 2 at duration 12 = t2 - t0 minutes — not index 1 with duration
7 = t2 - t1 as the claim states. -/
theorem c4_scenarioB_counterexample :
    (calculate_time_differences dfScenarioB).map
        (fun o => o.1.map (fun m => (m.receive_index, m.send_index, m.time_diff_minutes))) =
      Except.ok [(0, 2, some 12)] ∧
    ((0 : Nat), (2 : Nat), (some 12 : Option Int)) ≠
      ((1 : Nat), (2 : Nat), (some 7 : Option Int)) := by
  constructor
  · decide
  · decide

/-- C4 amended: for the three-row input 接收@t0, 接收@t1, 发出@t2 with all
timestamps valid, the engine produces exactly one Match, with receive index
0, send index 2 and duration t2 - t0 minutes (the first 接收 row is the one
matched; the row at index 1 is left unmatched). -/
theorem c4_scenarioB_amended (s0 s1 s2 : String) (t0 t1 t2 : Int)
    (h0 : parseTimestamp s0 = some t0) (h1 : parseTimestamp s1 = some t1)
    (h2 : parseTimestamp s2 = some t2) :
    (calculate_time_differences (threeRowDf s0 s1 s2)).map
        (fun o => o.1.map (fun m => (m.receive_index, m.send_index, m.time_diff_minutes))) =
      Except.ok [(0, 2, some (t2 - t0))] := by
  have hok : calculate_time_differences (threeRowDf s0 s1 s2) =
      Except.ok (scanFrom (scanRowsOf (threeRowDf s0 s1 s2)) 0, mutatedDf (threeRowDf s0 s1 s2)) :=
    calculate_ok_of_cols (by simp [threeRowDf]) (by simp [threeRowDf])
  rw [hok]
  have hsrows : scanRowsOf (threeRowDf s0 s1 s2) =
      [⟨CellVal.str "接收", CellVal.str s0, some t0⟩,
       ⟨CellVal.str "接收", CellVal.str s1, some t1⟩,
       ⟨CellVal.str "发出", CellVal.str s2, some t2⟩] := by
    simp [scanRowsOf, threeRowDf, rowCell, DataFrame.colIdx, coerceDatetime, h0, h1, h2]
  rw [hsrows]
  simp [scanFrom, scanAux, findSent, findSentAux, isReceivedAt, isSentAt, mkMatchRec,
    timeDiffMinutes, CellVal.eqStr, Except.map]

/-- Witness for C4 amended at the concrete Scenario B timestamps. -/
theorem c4_scenarioB_amended_witness :
    (calculate_time_differences dfScenarioB).map
        (fun o => o.1.map (fun m => (m.receive_index, m.send_index, m.time_diff_minutes))) =
      Except.ok [(0, 2, some (28401732 - 28401720))] :=
  c4_scenarioB_amended "2024/01/01 10:00" "2024/01/01 10:05" "2024/01/01 10:12"
    28401720 28401725 28401732 (by decide) (by decide) (by decide)

/-- C5 counterexample: the engine does mutate its input — after a call on
`dfPair` the DataFrame has gained a `datetime` column, so the observable
input no longer equals the input before the call. -/
theorem c5_mutation_counterexample :
    (calculate_time_differences dfPair).map (fun o => o.2.columns) =
      Except.ok (dfPair.columns ++ [CellVal.str "datetime"]) ∧
    dfPair.columns ++ [CellVal.str "datetime"] ≠ dfPair.columns := by
  constructor
  · decide
  · decide

/-- C5 amended: the engine's only mutation of the input is assigning the
derived `datetime` column; for an input without a pre-existing `datetime`
column that column is appended last, each row gains exactly that one cell,
and dropping it restores the input rows and columns unchanged. -/
theorem c5_mutation_only_datetime (df : DataFrame) (out : List MatchRec × DataFrame)
    (h : calculate_time_differences df = Except.ok out)
    (hnd : CellVal.str "datetime" ∉ df.columns) :
    out.2.columns = df.columns ++ [CellVal.str "datetime"] ∧
      out.2.rows.map List.dropLast = df.rows := by
  obtain ⟨_, h2, _, _⟩ := calculate_ok_inv h
  rw [h2]
  have hci : df.colIdx (CellVal.str "datetime") = none := by
    unfold DataFrame.colIdx
    rw [List.findIdx?_eq_none_iff]
    intro x hx
    simp only [beq_eq_false_iff_ne, ne_eq]
    intro he
    exact hnd (he ▸ hx)
  unfold mutatedDf DataFrame.setColumn
  rw [hci]
  constructor
  · rfl
  · rw [List.map_map]
    have hfun : (List.dropLast ∘ fun rv : List CellVal × CellVal => rv.1 ++ [rv.2]) =
        Prod.fst := by
      funext rv
      exact List.dropLast_concat ..
    rw [hfun]
    exact List.map_fst_zip _ _ (by simp [dtSeries])

/-- Witness for C5 amended on `dfPair`. -/
theorem c5_mutation_only_datetime_witness :
    (mutatedDf dfPair).columns = dfPair.columns ++ [CellVal.str "datetime"] ∧
      (mutatedDf dfPair).rows.map List.dropLast = dfPair.rows :=
  c5_mutation_only_datetime dfPair (scanFrom (scanRowsOf dfPair) 0, mutatedDf dfPair)
    (by decide) (by decide)

/-- The direction-column register of the header scan ends up set exactly when
it started set or some header cell is the 发出/接收 label. -/
theorem scanHeaderIdxs_fst_isSome (hs : List CellVal) :
    ∀ (i : Nat) (acc : Option Nat × Option Nat),
      ((scanHeaderIdxs hs i acc).1.isSome = true ↔
        (acc.1.isSome = true ∨ CellVal.str "发出/接收" ∈ hs)) := by
  induction hs with
  | nil => intro i acc; simp [scanHeaderIdxs]
  | cons hcell rest ih =>
    intro i acc
    by_cases h1 : hcell = CellVal.str "发出/接收"
    · subst h1
      have hstep : scanHeaderIdxs (CellVal.str "发出/接收" :: rest) i acc =
          scanHeaderIdxs rest (i + 1) (some i, acc.2) := rfl
      rw [hstep, ih]
      simp
    · by_cases h2 : hcell = CellVal.str "会话时间"
      · subst h2
        have hstep : scanHeaderIdxs (CellVal.str "会话时间" :: rest) i acc =
            scanHeaderIdxs rest (i + 1) (acc.1, some i) := rfl
        rw [hstep, ih]
        simp only [List.mem_cons]
        constructor
        · rintro (ha | hb)
          · exact Or.inl ha
          · exact Or.inr (Or.inr hb)
        · rintro (ha | hb | hc)
          · exact Or.inl ha
          · exact absurd hb.symm (by decide)
          · exact Or.inr hc
      · simp only [scanHeaderIdxs, if_neg h1, if_neg h2]
        rw [ih]
        simp only [List.mem_cons]
        constructor
        · rintro (ha | hb)
          · exact Or.inl ha
          · exact Or.inr (Or.inr hb)
        · rintro (ha | hb | hc)
          · exact Or.inl ha
          · exact absurd hb.symm h1
          · exact Or.inr hc

/-- The time-column register of the header scan ends up set exactly when it
started set or some header cell is the 会话时间 label. -/
theorem scanHeaderIdxs_snd_isSome (hs : List CellVal) :
    ∀ (i : Nat) (acc : Option Nat × Option Nat),
      ((scanHeaderIdxs hs i acc).2.isSome = true ↔
        (acc.2.isSome = true ∨ CellVal.str "会话时间" ∈ hs)) := by
  induction hs with
  | nil => intro i acc; simp [scanHeaderIdxs]
  | cons hcell rest ih =>
    intro i acc
    by_cases h1 : hcell = CellVal.str "发出/接收"
    · subst h1
      have hstep : scanHeaderIdxs (CellVal.str "发出/接收" :: rest) i acc =
          scanHeaderIdxs rest (i + 1) (some i, acc.2) := rfl
      rw [hstep, ih]
      simp only [List.mem_cons]
      constructor
      · rintro (ha | hb)
        · exact Or.inl ha
        · exact Or.inr (Or.inr hb)
      · rintro (ha | hb | hc)
        · exact Or.inl ha
        · exact absurd hb.symm (by decide)
        · exact Or.inr hc
    · by_cases h2 : hcell = CellVal.str "会话时间"
      · subst h2
        have hstep : scanHeaderIdxs (CellVal.str "会话时间" :: rest) i acc =
            scanHeaderIdxs rest (i + 1) (acc.1, some i) := rfl
        rw [hstep, ih]
        simp
      · simp only [scanHeaderIdxs, if_neg h1, if_neg h2]
        rw [ih]
        simp only [List.mem_cons]
        constructor
        · rintro (ha | hb)
          · exact Or.inl ha
          · exact Or.inr (Or.inr hb)
        · rintro (ha | hb | hc)
          · exact Or.inl ha
          · exact absurd hb.symm h2
          · exact Or.inr hc

/-- C8 counterexample: in `sheetTricky` both required labels appear in the
sheet, yet the whole operation fails with the structural error, because the
first row containing either label lacks the 会话时间 label. -/
theorem c8_header_labels_counterexample :
    (sheetTricky.any (fun r => r.contains (CellVal.str "发出/接收"))) = true ∧
    (sheetTricky.any (fun r => r.contains (CellVal.str "会话时间"))) = true ∧
    process_excel_file sheetTricky =
      Except.error "必须包含\x27发出/接收\x27和\x27会话时间\x27列" := by
  refine ⟨rfl, rfl, ?_⟩
  decide

/-- C8 amended: the reader fails with the first structural error when no row
contains either label; otherwise it takes the first row containing either
label as the header row, succeeds (and pairing is attempted) when that row
contains both labels, and fails with the second structural error when that
row lacks one of them. -/
theorem c8_header_detection_amended (sheet : List (List CellVal)) :
    (findHeaderRow sheet = none →
      headerPhase sheet = Except.error "无法找到包含\x27发出/接收\x27或\x27会话时间\x27的列") ∧
    ∀ hr headers, findHeaderRow sheet = some (hr, headers) →
      ((CellVal.str "发出/接收" ∈ headers ∧ CellVal.str "会话时间" ∈ headers) →
        (headerPhase sheet).isOk = true) ∧
      ((CellVal.str "发出/接收" ∉ headers ∨ CellVal.str "会话时间" ∉ headers) →
        headerPhase sheet = Except.error "必须包含\x27发出/接收\x27和\x27会话时间\x27列") := by
  constructor
  · intro hnone
    simp only [headerPhase, hnone]
  · intro hr headers hsome
    have hfst := scanHeaderIdxs_fst_isSome headers 0 (none, none)
    have hsnd := scanHeaderIdxs_snd_isSome headers 0 (none, none)
    rcases hscan : scanHeaderIdxs headers 0 (none, none) with ⟨st, tt⟩
    rw [hscan] at hfst hsnd
    simp only [Option.isSome_none, Bool.false_eq_true, false_or] at hfst hsnd
    constructor
    · rintro ⟨hd, ht⟩
      have h1 : st.isSome = true := hfst.mpr hd
      have h2 : tt.isSome = true := hsnd.mpr ht
      obtain ⟨si, rfl⟩ := Option.isSome_iff_exists.mp h1
      obtain ⟨ti, rfl⟩ := Option.isSome_iff_exists.mp h2
      simp only [headerPhase, hsome, hscan]
      rfl
    · intro hmiss
      cases st with
      | some si =>
        cases tt with
        | some ti =>
          exfalso
          rcases hmiss with hm | hm
          · exact hm (hfst.mp rfl)
          · exact hm (hsnd.mp rfl)
        | none => simp only [headerPhase, hsome, hscan]
      | none =>
        cases tt with
        | some ti => simp only [headerPhase, hsome, hscan]
        | none => simp only [headerPhase, hsome, hscan]

/-- Witness for C8 amended: on `sheetGood` the header row is its second row,
holding both labels, and header detection succeeds. -/
theorem c8_header_detection_amended_witness :
    (headerPhase sheetGood).isOk = true :=
  ((c8_header_detection_amended sheetGood).2 2
      [CellVal.str "发出/接收", CellVal.str "会话时间"] (by decide)).1 (by decide)

/-- C10: when the rows below the header are all skipped, the extracted data
is empty, `pd.DataFrame([])` has no columns at all, so the pairing call
raises its missing-columns `ValueError` and the whole operation fails with
the re-wrapped message instead of returning an empty Match list. -/
theorem c10_empty_data_whole_failure (sheet : List (List CellVal)) (hr : Nat)
    (headers : List CellVal) (si ti : Nat)
    (hh : headerPhase sheet = Except.ok (hr, headers, si, ti))
    (hd : extractData sheet hr headers si ti = []) :
    process_excel_file sheet =
      Except.error ("计算时间差时出错: " ++ "数据必须包含\x27发出/接收\x27和\x27会话时间\x27列") := by
  simp only [process_excel_file, hh, hd]
  have hcalc : calculate_time_differences (mkDataFrame []) =
      Except.error "数据必须包含\x27发出/接收\x27和\x27会话时间\x27列" := by decide
  rw [hcalc]

/-- Witness for C10 on the header-only sheet. -/
theorem c10_empty_data_whole_failure_witness :
    process_excel_file sheetHeaderOnly =
      Except.error ("计算时间差时出错: " ++ "数据必须包含\x27发出/接收\x27和\x27会话时间\x27列") :=
  c10_empty_data_whole_failure sheetHeaderOnly 1
    [CellVal.str "发出/接收", CellVal.str "会话时间"] 0 1 (by decide) (by decide)
